import Mathlib

/-
Verification development for `raster.py` of the bigml-rasters repository.

The Python module is shallowly embedded below.  Conventions:
  * Python floats appearing in the sidecar metadata and in coordinate
    arithmetic are modelled as exact rationals (`ℚ`).
  * Values decoded from the binary payload by `struct.unpack` are modelled
    by `PyFloat`, which also covers the IEEE-754 non-finite results of the
    `f`/`d` format characters (infinities and NaN); Python comparison
    semantics for those values are modelled by `ple`/`pge`.
  * A Python exception escaping a function is modelled by `Except.error`
    carrying a `PyErr`.
  * File contents are passed explicitly: the parsed sidecar (the external
    configparser collaborator) as an `Option Sidecar` (`none` models
    `config.read` returning an empty list, i.e. an unreadable sidecar) and
    the `.gri` payload as a list of byte values.
  * The PROJ4 → WKT conversion done by the external `osr` collaborator is
    an opaque parameter `toWkt`.
  * GDAL's in-memory dataset is modelled by `Dataset`; the value
    conversion GDAL may apply when `WriteArray` stores a numpy array into
    a band of a narrower GDAL type is an external-collaborator effect that
    is not modelled: bands store the Python-level values exactly.
-/

namespace RasterSpec

/-- Python exceptions that the embedded code can raise. -/
inductive PyErr where
  | typeError (msg : String)
  | keyError (key : String)
  | structError
  | valueError (msg : String)
  | nameError (ident : String)
  | indexError
  | zeroDivisionError
  deriving DecidableEq

/-- A Python numeric value produced by `struct.unpack`: either an exact
finite number (booleans decode to 0/1, integers to themselves, finite
IEEE-754 floats to their exact rational value) or a non-finite float. -/
inductive PyFloat where
  | finite (q : ℚ)
  | inf
  | ninf
  | nan
  deriving DecidableEq

/-- Python `x <= m` for an unpacked value `x` and a finite float `m`
(`NaN` compares false; `inf <= m` is false; `-inf <= m` is true). -/
def ple : PyFloat → ℚ → Bool
  | PyFloat.finite q, m => decide (q ≤ m)
  | PyFloat.inf, _ => false
  | PyFloat.ninf, _ => true
  | PyFloat.nan, _ => false

/-- Python `x >= m` for an unpacked value `x` and a finite float `m`. -/
def pge : PyFloat → ℚ → Bool
  | PyFloat.finite q, m => decide (m ≤ q)
  | PyFloat.inf, _ => true
  | PyFloat.ninf, _ => false
  | PyFloat.nan, _ => false

/-- Assemble a little-endian byte list into a natural number
(first byte is least significant). -/
def bytesLE : List Nat → Nat
  | [] => 0
  | b :: bs => b + 256 * bytesLE bs

/-- Two's-complement reading of a `w`-byte unsigned value `n`. -/
def twosComplement (w n : Nat) : ℚ :=
  if n < 2 ^ (8 * w - 1) then (n : ℚ) else (n : ℚ) - (2 ^ (8 * w) : ℚ)

/-- Exact decoding of an IEEE-754 binary float with `eb` exponent bits and
`mb` mantissa bits from its `n`-encoded bit pattern. -/
def ieeeDecode (eb mb n : Nat) : PyFloat :=
  let frac := n % 2 ^ mb
  let expo := n / 2 ^ mb % 2 ^ eb
  let sgn : ℚ := if n / 2 ^ (mb + eb) % 2 = 1 then -1 else 1
  let bias : ℤ := 2 ^ (eb - 1) - 1
  if expo = 2 ^ eb - 1 then
    if frac = 0 then (if sgn = 1 then PyFloat.inf else PyFloat.ninf) else PyFloat.nan
  else if expo = 0 then
    PyFloat.finite (sgn * (frac : ℚ) * (2 : ℚ) ^ (1 - bias - (mb : ℤ)))
  else
    PyFloat.finite (sgn * ((2 ^ mb + frac : ℕ) : ℚ) * (2 : ℚ) ^ ((expo : ℤ) - bias - (mb : ℤ)))

/-- The `DATATYPES` dict of `raster.py`: R raster datatype tag to `struct`
format character; a missing key is a Python `KeyError`. -/
def DATATYPES (tag : String) : Option String :=
  if tag = "LOG1S" then some "?"
  else if tag = "INT1S" then some "b"
  else if tag = "INT2S" then some "h"
  else if tag = "INT4S" then some "i"
  else if tag = "INT8S" then some "q"
  else if tag = "INT1U" then some "B"
  else if tag = "INT2U" then some "H"
  else if tag = "FLT4S" then some "f"
  else if tag = "FLT8S" then some "d"
  else none

/-- The `BYTEORDER` dict of `raster.py`: byte-order tag to `struct`
byte-order prefix character. -/
def BYTEORDER (tag : String) : Option String :=
  if tag = "little" then some "<"
  else if tag = "big" then some ">"
  else none

/-- GDAL raster datatypes appearing in the `GDALTYPES` dict. -/
inductive GdalType where
  | gdtByte
  | gdtInt16
  | gdtInt32
  | gdtUInt16
  | gdtFloat32
  | gdtFloat64
  deriving DecidableEq

/-- The `GDALTYPES` dict of `raster.py`: R raster datatype tag to GDAL
band datatype. -/
def GDALTYPES (tag : String) : Option GdalType :=
  if tag = "LOG1S" then some GdalType.gdtByte
  else if tag = "INT1S" then some GdalType.gdtByte
  else if tag = "INT2S" then some GdalType.gdtInt16
  else if tag = "INT4S" then some GdalType.gdtInt32
  else if tag = "INT8S" then some GdalType.gdtInt32
  else if tag = "INT1U" then some GdalType.gdtByte
  else if tag = "INT2U" then some GdalType.gdtUInt16
  else if tag = "FLT4S" then some GdalType.gdtFloat32
  else if tag = "FLT8S" then some GdalType.gdtFloat64
  else none

/-- `struct.calcsize` for the single standard-size format characters used
by `DATATYPES` (with a byte-order prefix, `struct` uses standard sizes). -/
def calcsize (c : String) : Nat :=
  if c = "?" ∨ c = "b" ∨ c = "B" then 1
  else if c = "h" ∨ c = "H" then 2
  else if c = "i" ∨ c = "f" then 4
  else if c = "q" ∨ c = "d" then 8
  else 0

/-- Decode one `struct` group of bytes according to byte-order prefix `bo`
and format character `dt`. -/
def decodeGroup (bo dt : String) (bytes : List Nat) : PyFloat :=
  let n := if bo = "<" then bytesLE bytes else bytesLE bytes.reverse
  if dt = "?" then PyFloat.finite (if n = 0 then 0 else 1)
  else if dt = "b" then PyFloat.finite (twosComplement 1 n)
  else if dt = "h" then PyFloat.finite (twosComplement 2 n)
  else if dt = "i" then PyFloat.finite (twosComplement 4 n)
  else if dt = "q" then PyFloat.finite (twosComplement 8 n)
  else if dt = "B" then PyFloat.finite (n : ℚ)
  else if dt = "H" then PyFloat.finite (n : ℚ)
  else if dt = "f" then ieeeDecode 8 23 n
  else if dt = "d" then ieeeDecode 11 52 n
  else PyFloat.finite 0

/-- `struct.unpack` of `count` fixed-width groups of `w` bytes each
(callers must separately check that the buffer length is exactly
`count * w`, as `struct.unpack` does). -/
def unpackValues (bo dt : String) (w count : Nat) (bytes : List Nat) : List PyFloat :=
  (List.range count).map (fun k => decodeGroup bo dt ((bytes.drop (k * w)).take w))

/-- The parsed custom-format sidecar (`.grd`), as produced by the external
configparser collaborator: sections `[data]` and `[georeference]`.
Grid dimensions are modelled as naturals. -/
structure Sidecar where
  datatype : String
  byteorder : String
  minvalue : ℚ
  maxvalue : ℚ
  nodatavalue : ℚ
  ncols : Nat
  nrows : Nat
  xmin : ℚ
  xmax : ℚ
  ymin : ℚ
  ymax : ℚ
  projection : String
  deriving DecidableEq

/-- A six-entry GDAL geotransform tuple
`(origin x, pixel width, row rotation, origin y, column rotation, pixel height)`. -/
structure GeoTransform where
  gt0 : ℚ
  gt1 : ℚ
  gt2 : ℚ
  gt3 : ℚ
  gt4 : ℚ
  gt5 : ℚ
  deriving DecidableEq

/-- One raster band: its description string, optional nodata value, and its
cell values flattened in row-major order (`ReadAsArray().flatten()`). -/
structure Band where
  description : String
  nodata : Option ℚ
  values : List PyFloat
  deriving DecidableEq

/-- A GDAL dataset handle: description (the name it was created/opened
with), grid width `xsize` and height `ysize`, geotransform, projection and
bands. -/
structure Dataset where
  description : String
  xsize : Nat
  ysize : Nat
  geotransform : GeoTransform
  gdaltype : GdalType
  projection : String
  bands : List Band
  deriving DecidableEq

/-- Replace the last element of a non-empty list (Python `tokens[-1] = x`). -/
def setLast (x : String) : List String → List String
  | [] => []
  | [_] => [x]
  | a :: b :: rest => a :: setLast x (b :: rest)

/-- The value filter of `raster.py` lines 73-75, literally:
`[x if (x <= minval and x >= maxval) else nodatavalue for x in values]`. -/
def nodataFilter (minval maxval nodatavalue : ℚ) (values : List PyFloat) : List PyFloat :=
  values.map (fun x => if ple x minval && pge x maxval then x else PyFloat.finite nodatavalue)

/-- Embedding of `load_r_raster`.  `sidecar` is the configparser's view of
the derived `.grd` path (`none` models `config.read` returning an empty
list), `binstring` the raw bytes of the derived `.gri` path, and `toWkt`
the external PROJ4 → WKT conversion.  Note that line 48 of the source,
`raise(Exception, 'could not read R raster file %s' % ini_path)`, applies
Python-3 `raise` to a tuple, which raises
`TypeError: exceptions must derive from BaseException` (the formatted
message naming `ini_path` is built but discarded); the unpack count is
`'%d' % (len(binstring)/struct.calcsize(dt))`, i.e. the float quotient
truncated, and `struct.unpack` then demands the buffer length equal
`count * itemsize`; the resolution divisions
`xres = (xmax-xmin)/ncols` and `yres = (ymax-ymin)/nrows` at lines 66-67
raise `ZeroDivisionError` when a declared dimension is zero (this sits
between the unpack and the value filter/reshape in the source);
`numpy.reshape` raises `ValueError` when the element count differs from
`nrows * ncols`. -/
def load_r_raster (toWkt : String → String) (filename : String)
    (sidecar : Option Sidecar) (binstring : List Nat) : Except PyErr Dataset :=
  match sidecar with
  | none => Except.error (PyErr.typeError "exceptions must derive from BaseException")
  | some s =>
    match DATATYPES s.datatype with
    | none => Except.error (PyErr.keyError s.datatype)
    | some dt =>
      match BYTEORDER s.byteorder with
      | none => Except.error (PyErr.keyError s.byteorder)
      | some bo =>
        -- `fmt` has `len(binstring)/calcsize(dt)` groups and `struct.unpack`
        -- demands the buffer length equal the format's total size
        if binstring.length ≠ binstring.length / calcsize dt * calcsize dt then
          Except.error PyErr.structError
        -- `xres = (xmax-xmin)/ncols` and `yres = (ymax-ymin)/nrows` divide by
        -- the declared dimensions
        else if s.ncols = 0 ∨ s.nrows = 0 then
          Except.error PyErr.zeroDivisionError
        -- `reshape(arr, (nrows, ncols))` demands exactly `nrows*ncols` values
        else if (nodataFilter s.minvalue s.maxvalue s.nodatavalue
            (unpackValues bo dt (calcsize dt) (binstring.length / calcsize dt)
              binstring)).length ≠ s.nrows * s.ncols then
          Except.error (PyErr.valueError "cannot reshape array")
        else
          match GDALTYPES s.datatype with
          | none => Except.error (PyErr.keyError s.datatype)
          | some g =>
            Except.ok
              { description := String.intercalate "." (setLast "tif" (filename.splitOn "."))
                xsize := s.ncols
                ysize := s.nrows
                geotransform :=
                  { gt0 := s.xmin, gt1 := (s.xmax - s.xmin) / (s.ncols : ℚ), gt2 := 0
                    gt3 := s.ymax, gt4 := 0, gt5 := (s.ymax - s.ymin) / (s.nrows : ℚ) }
                gdaltype := g
                projection := toWkt s.projection
                bands := [{ description := "", nodata := some s.nodatavalue,
                            values := nodataFilter s.minvalue s.maxvalue s.nodatavalue
                              (unpackValues bo dt (calcsize dt)
                                (binstring.length / calcsize dt) binstring) }] }

/-- The GDAL access-mode constants used by `gdal.Open`. -/
inductive OpenMode where
  | gaReadOnly
  | gaUpdate
  deriving DecidableEq

/-- Embedding of the extension-dispatch step at lines 103-109 of `load`:
Python `if not rastertype` treats both `None` and the empty string as
missing, infers `r-raster` from a `gri`/`grd` extension and `bil` from a
`bil` extension (`tokens[-1]` of the `.`-split filename). -/
def resolve_rastertype (filename : String) (rastertype : Option String) : Option String :=
  if rastertype = none ∨ rastertype = some "" then
    if (filename.splitOn ".").getLastD "" = "gri" ∨ (filename.splitOn ".").getLastD "" = "grd" then
      some "r-raster"
    else if (filename.splitOn ".").getLastD "" = "bil" then some "bil"
    else rastertype
  else rastertype

/-- Embedding of `load`: dispatches to `load_r_raster` for the custom
format, otherwise calls `gdal.Open(filename, gdal.GA_ReadOnly)` (the
external GDAL collaborator, passed in as `gdalOpen`); the bare `except`
at line 116 swallows any open failure, prints a message and falls off the
end of the function, returning Python `None`. -/
def load (toWkt : String → String) (gdalOpen : String → OpenMode → Except String Dataset)
    (sidecar : Option Sidecar) (binstring : List Nat)
    (filename : String) (rastertype : Option String) : Except PyErr (Option Dataset) :=
  if resolve_rastertype filename rastertype = some "r-raster" then
    match load_r_raster toWkt filename sidecar binstring with
    | Except.error e => Except.error e
    | Except.ok ds => Except.ok (some ds)
  else
    match gdalOpen filename OpenMode.gaReadOnly with
    | Except.ok ds => Except.ok (some ds)
    | Except.error _ => Except.ok none

/-- A value stored in an output row: either one numeric cell value, or a
whole numpy mesh row (what `inst['x'] = x_mesh[i]` actually assigns). -/
inductive CellVal where
  | num (v : PyFloat)
  | arr (vs : List ℚ)
  deriving DecidableEq

/-- One output row: a Python dict, modelled as an association list in
insertion order (Python dicts preserve insertion order, and updating an
existing key keeps its position). -/
abbrev Row := List (String × CellVal)

/-- Python dict assignment `d[k] = v`. -/
def dictInsert (d : Row) (k : String) (v : CellVal) : Row :=
  if d.any (fun p => p.1 == k) then d.map (fun p => if p.1 == k then (k, v) else p)
  else d ++ [(k, v)]

/-- The per-band fill loop `for i, v in enumerate(values):
instances[i][band_name] = v`, restricted to indices that exist (the caller
checks the `IndexError` case separately). -/
def fillValues (bn : String) (vals : List PyFloat) (insts : List Row) : List Row :=
  ((List.range insts.length).zip insts).map
    (fun p =>
      if p.1 < vals.length then dictInsert p.2 bn (CellVal.num (vals.getD p.1 PyFloat.nan))
      else p.2)

/-- The mutable local state of `make_table`'s raster/band loops: the
`instances` list plus the function-scoped Python variables `band_name` and
`i` (`none` models a name that has not been bound yet; referencing it
raises `NameError`).  In Python 3 the list comprehensions at lines 130 and
136 do not leak their loop variables, so `i` is only ever bound by
`for i, v in enumerate(values)`. -/
structure BandState where
  insts : List Row
  bandName : Option String
  iVar : Option Nat

/-- Embedding of the body of `make_table`'s inner band loop (lines
137-146).  `name = b.GetDescription()` shadows the basename computed at
line 134; the empty-description fallback builds `'%s_%d' % (name, i+1)`
from that same (empty) `name` and from the stale loop variable `i`, and
the non-empty-description branch leaves `band_name` unassigned. -/
def processBand (nBands : Nat) (st : BandState) (b : Band) : Except PyErr BandState :=
  let name := b.description
  let bnStep : Except PyErr (Option String) :=
    if name = "" then
      if nBands > 1 then
        match st.iVar with
        | none => Except.error (PyErr.nameError "i")
        | some i => Except.ok (some (name ++ "_" ++ toString (i + 1)))
      else Except.ok (some name)
    else Except.ok st.bandName
  match bnStep with
  | Except.error e => Except.error e
  | Except.ok bnOpt =>
    let vals := b.values
    if vals.isEmpty then Except.ok { st with bandName := bnOpt }
    else
      match bnOpt with
      | none => Except.error (PyErr.nameError "band_name")
      | some bn =>
        if st.insts.length < vals.length then Except.error PyErr.indexError
        else
          Except.ok { insts := fillValues bn vals st.insts, bandName := some bn,
                      iVar := some (vals.length - 1) }

/-- Left fold that propagates the first raised exception. -/
def foldE {σ α ε : Type} (f : σ → α → Except ε σ) : σ → List α → Except ε σ
  | s, [] => Except.ok s
  | s, a :: rest =>
    match f s a with
    | Except.error e => Except.error e
    | Except.ok s2 => foldE f s2 rest

/-- Embedding of one iteration of `make_table`'s outer raster loop.  The
basename computed at line 134 from `r.GetDescription()` is immediately
shadowed by the band description inside the band loop, so it has no
observable effect. -/
def processRaster (st : BandState) (r : Dataset) : Except PyErr BandState :=
  foldE (processBand r.bands.length) st r.bands

/-- numpy's `linspace(start, stop, num)` with the default inclusive
endpoint: `num` evenly spaced samples; for `num ≥ 2` consecutive samples
are `(stop - start)/(num - 1)` apart. -/
def linspace (start stop : ℚ) (num : Nat) : List ℚ :=
  if num ≤ 1 then (List.range num).map (fun _ => start)
  else (List.range num).map (fun i => start + i * (stop - start) / ((num : ℚ) - 1))

/-- Embedding of the coordinate loop at lines 156-158.  After
`meshgrid(x_coords, y_coords)`, `x_mesh` and `y_mesh` have shape
`(rows, cols)`, so `x_mesh[i]` for the flat instance index `i` is the
whole mesh row `x_coords` when `i < rows` and an `IndexError` otherwise;
`y_mesh[i]` is `cols` copies of `y_coords[i]`. -/
def addCoords (cols : Nat) (xCoords yCoords : List ℚ) (insts : List Row) :
    Except PyErr (List Row) :=
  if insts.length ≤ yCoords.length then
    Except.ok (((List.range insts.length).zip insts).map
      (fun p => dictInsert (dictInsert p.2 "x" (CellVal.arr xCoords)) "y"
        (CellVal.arr (List.replicate cols (yCoords.getD p.1 0)))))
  else Except.error PyErr.indexError

/-- Embedding of `make_table` (lines 120-159): dimensions and
geotransform come from the first raster, every band of every raster is
flattened row-major into one value per instance dict, and the coordinate
mesh is attached under `x`/`y`. -/
def make_table (rasters : List Dataset) : Except PyErr (List Row) :=
  match rasters with
  | [] => Except.error PyErr.indexError
  | r0 :: _ =>
    let cols := r0.xsize
    let rows := r0.ysize
    let gt := r0.geotransform
    let xres := gt.gt1
    let yres := gt.gt5
    let topleft_x := gt.gt0
    let topleft_y := gt.gt3
    match foldE processRaster ⟨List.replicate (cols * rows) [], none, none⟩ rasters with
    | Except.error e => Except.error e
    | Except.ok st =>
      let x_start := topleft_x + xres / 2
      let x_end := x_start + xres * (cols : ℚ)
      let y_start := topleft_y - yres / 2
      let y_end := y_start - yres * (rows : ℚ)
      addCoords cols (linspace x_start x_end cols) (linspace y_start y_end rows) st.insts

/-- The `all_equal` helper of `raster.py`:
`sequence.count(sequence[0]) == len(sequence)`; indexing an empty
sequence raises `IndexError`. -/
def all_equal {α : Type} [DecidableEq α] : List α → Except PyErr Bool
  | [] => Except.error PyErr.indexError
  | a :: rest => Except.ok (decide ((a :: rest).count a = (a :: rest).length))

/-- Embedding of the pipeline entry point `rasters_to_table` (lines
161-168), starting after the per-filename `load` calls: the input is the
list of loaded raster handles.  Unpacking `zip(*[...])` of an empty list
raises `ValueError`.  `resample_and_reproject` is modelled from the spec:
it is called at line 167 but implemented nowhere in the repository — the
spec calls it "an external capability, not implemented in-repo" whose
contract is to return raster handles sharing one geotransform and
projection — so it is an opaque function parameter here. -/
def rasters_to_table (resample_and_reproject : List Dataset → List Dataset)
    (rasters : List Dataset) : Except PyErr (List Row) :=
  match all_equal (rasters.map (fun r => r.geotransform)),
        all_equal (rasters.map (fun r => r.projection)) with
  | Except.ok g, Except.ok p =>
    if !g || !p then make_table (resample_and_reproject rasters)
    else make_table rasters
  | _, _ => Except.error (PyErr.valueError "not enough values to unpack")

/-- Modelled from the spec: the round-trip testable property writes
"values ... into the custom binary format with a known datatype/byte-order
combination"; no writer exists in the repository, so `struct.pack` is
modelled here for the boolean/integer format characters of `DATATYPES`
(standard sizes, two's complement, both byte orders).  The floating-point
writers are not modelled. -/
def specPack (tag byteorder : String) (vals : List Int) : Option (List Nat) :=
  match DATATYPES tag, BYTEORDER byteorder with
  | some dt, some bo =>
    if dt = "f" ∨ dt = "d" then none
    else
      let w := calcsize dt
      some ((vals.map (fun v =>
        let le := (List.range w).map (fun i => (v % ((2 : ℤ) ^ (8 * w))).toNat / 256 ^ i % 256)
        if bo = "<" then le else le.reverse)).flatten)
  | _, _ => none

/-! ## Helper lemmas -/

theorem nodataFilter_length (a b c : ℚ) (vs : List PyFloat) :
    (nodataFilter a b c vs).length = vs.length := by
  simp [nodataFilter]

theorem unpackValues_length (bo dt : String) (w count : Nat) (bytes : List Nat) :
    (unpackValues bo dt w count bytes).length = count := by
  simp [unpackValues]

theorem calcsize_pos_of_DATATYPES {tag dt : String} (h : DATATYPES tag = some dt) :
    0 < calcsize dt := by
  unfold DATATYPES at h
  split_ifs at h <;> simp_all <;> subst h <;> decide

theorem GDALTYPES_isSome_of_DATATYPES {tag dt : String} (h : DATATYPES tag = some dt) :
    ∃ g, GDALTYPES tag = some g := by
  unfold DATATYPES at h
  unfold GDALTYPES
  split_ifs at h <;> simp_all

theorem load_r_raster_ok_inv {toWkt : String → String} {filename : String}
    {s : Sidecar} {bin : List Nat} {ds : Dataset}
    (h : load_r_raster toWkt filename (some s) bin = Except.ok ds) :
    ∃ vs, ds.bands = [{ description := "", nodata := some s.nodatavalue,
                        values := nodataFilter s.minvalue s.maxvalue s.nodatavalue vs }] := by
  simp only [load_r_raster] at h
  repeat' split at h
  all_goals try exact Except.noConfusion h
  injection h with h2
  exact ⟨_, by rw [← h2]⟩

theorem nodataFilter_all_nodata {minval maxval : ℚ} (nd : ℚ) (vs : List PyFloat)
    (hlt : minval < maxval) :
    ∀ v ∈ nodataFilter minval maxval nd vs, v = PyFloat.finite nd := by
  intro v hv
  simp only [nodataFilter, List.mem_map] at hv
  obtain ⟨x, _, hx⟩ := hv
  have hcond : (ple x minval && pge x maxval) = false := by
    cases x with
    | finite q =>
      simp only [ple, pge, Bool.and_eq_false_iff, decide_eq_false_iff_not]
      by_cases h1 : q ≤ minval
      · right
        intro h2
        exact absurd (lt_of_lt_of_le hlt h2) (not_lt.mpr h1)
      · left; exact h1
    | inf => rfl
    | ninf => simp [ple, pge]
    | nan => rfl
  rw [hcond] at hx
  simp at hx
  exact hx.symm

theorem all_equal_map_head {α β : Type} [DecidableEq β] (f : α → β) (a : α) (tl : List α) :
    all_equal ((a :: tl).map f) = Except.ok (decide (∀ r ∈ a :: tl, f r = f a)) := by
  simp only [List.map_cons, all_equal]
  congr 1
  rw [decide_eq_decide, List.count_eq_length]
  constructor
  · intro h r hr
    rcases List.mem_cons.mp hr with h1 | h1
    · rw [h1]
    · exact (h (f r) (List.mem_cons_of_mem _ (List.mem_map_of_mem f h1))).symm
  · intro h b hb
    rcases List.mem_cons.mp hb with h1 | h1
    · rw [h1]
    · obtain ⟨r, hr, hrb⟩ := List.mem_map.mp h1
      rw [← hrb, h r (List.mem_cons_of_mem _ hr)]

/-! ## Claims -/

/-- C1: the claim states the intended validity-filter semantics of
`load_r_raster` — a value outside `[minvalue, maxvalue]` becomes the
nodata sentinel and a value inside is stored unchanged.  The code at line
74 instead keeps a value only when `x <= minval and x >= maxval`, so the
in-range value is the one replaced.  Evaluation at the failing input:
with validity range `[0, 10]` and nodata `-1`, the single INT1S payload
value `5` lies inside the declared range, yet the loaded band stores the
nodata sentinel `-1` in its place. -/
theorem claim_C1 :
    ((0 : ℚ) ≤ 5 ∧ (5 : ℚ) ≤ 10) ∧
    load_r_raster (fun p => p) "a.grd"
      (some { datatype := "INT1S", byteorder := "little", minvalue := 0, maxvalue := 10,
              nodatavalue := -1, ncols := 1, nrows := 1, xmin := 0, xmax := 1,
              ymin := 0, ymax := 1, projection := "" }) [5] =
      Except.ok
        { description := "a.tif", xsize := 1, ysize := 1,
          geotransform := { gt0 := 0, gt1 := 1, gt2 := 0, gt3 := 1, gt4 := 0, gt5 := 1 },
          gdaltype := GdalType.gdtByte, projection := "",
          bands := [{ description := "", nodata := some (-1),
                      values := [PyFloat.finite (-1)] }] } ∧
    PyFloat.finite (-1) ≠ PyFloat.finite 5 :=
  ⟨⟨by norm_num, by norm_num⟩, by with_unfolding_all rfl, by with_unfolding_all decide⟩

/-- C2: the claim says `make_table` returns `rows * cols` rows with
cell-center coordinates `x = topleft_x + xres/2 + j*xres`,
`y = topleft_y + yres/2 + i*yres`.  In the code, the coordinate loop at
lines 156-158 indexes the `(rows, cols)`-shaped meshes with the flat cell
index `i`, so for any grid with more than one column it raises
`IndexError` (at `i = rows`) instead of returning rows at all.
Evaluation at the failing input from the spec's own example (a 2×2 grid
with geotransform `(0, 1, 0, 10, 0, -1)`): the call fails with
`IndexError`. -/
theorem claim_C2 :
    make_table
      [{ description := "a.tif", xsize := 2, ysize := 2,
         geotransform := { gt0 := 0, gt1 := 1, gt2 := 0, gt3 := 10, gt4 := 0, gt5 := -1 },
         gdaltype := GdalType.gdtFloat64, projection := "P",
         bands := [{ description := "", nodata := none,
                     values := [PyFloat.finite 1, PyFloat.finite 2,
                                PyFloat.finite 3, PyFloat.finite 4] }] }] =
      Except.error PyErr.indexError := by
  with_unfolding_all rfl

/-- C3: the claim says the feature key is the band's description when
non-empty, else `basename` (single band) or `basename_k` (multi-band).
In the code, line 138 overwrites the basename with the band description
before the fallback uses it, so a single-band raster with an empty band
description gets the empty string as its feature key, not the file
basename.  Evaluation at the failing input: a 1×1 single-band raster
named `foo.tif` with an empty band description produces a row keyed by
`""` (and no key `"foo"`); the `x`/`y` values are moreover whole
1-element mesh rows, with `y` built from `topleft_y - yres/2 = 21/2`
rather than the cell center `19/2`. -/
theorem claim_C3 :
    make_table
      [{ description := "foo.tif", xsize := 1, ysize := 1,
         geotransform := { gt0 := 0, gt1 := 1, gt2 := 0, gt3 := 10, gt4 := 0, gt5 := -1 },
         gdaltype := GdalType.gdtFloat64, projection := "P",
         bands := [{ description := "", nodata := none,
                     values := [PyFloat.finite 1] }] }] =
      Except.ok [[("", CellVal.num (PyFloat.finite 1)),
                  ("x", CellVal.arr [1/2]),
                  ("y", CellVal.arr [21/2])]] := by
  with_unfolding_all rfl

/-- C4: `rasters_to_table` calls the (spec-modelled, external)
`resample_and_reproject` step on all the rasters before `make_table`
exactly when the loaded rasters' `(geotransform, projection)` pairs are
not all identical, and calls `make_table` on the rasters unchanged when
they are all identical.  The proof connects the count-based `all_equal`
check of the source to pairwise identity with the reference raster. -/
theorem claim_C4 (resample_and_reproject : List Dataset → List Dataset)
    (rasters : List Dataset) (r0 : Dataset) (h0 : rasters.head? = some r0) :
    ((∃ r ∈ rasters, (r.geotransform, r.projection) ≠ (r0.geotransform, r0.projection)) →
        rasters_to_table resample_and_reproject rasters =
          make_table (resample_and_reproject rasters)) ∧
    ((∀ r ∈ rasters, (r.geotransform, r.projection) = (r0.geotransform, r0.projection)) →
        rasters_to_table resample_and_reproject rasters = make_table rasters) := by
  cases rasters with
  | nil => exact absurd h0 (by simp)
  | cons a tl =>
    have ha : a = r0 := by simpa using h0
    subst ha
    constructor
    · intro hx
      obtain ⟨r, hr, hne⟩ := hx
      simp only [rasters_to_table, all_equal_map_head]
      have hcond : ¬ ((∀ r2 ∈ a :: tl, r2.geotransform = a.geotransform) ∧
          (∀ r2 ∈ a :: tl, r2.projection = a.projection)) := by
        intro ⟨hg, hp⟩
        exact hne (by rw [hg r hr, hp r hr])
      rcases not_and_or.mp hcond with hg | hp
      · rw [decide_eq_false hg]
        simp
      · rw [decide_eq_false hp]
        simp
    · intro hall
      simp only [rasters_to_table, all_equal_map_head]
      have hg : ∀ r ∈ a :: tl, r.geotransform = a.geotransform := by
        intro r hr
        exact congrArg Prod.fst (hall r hr)
      have hp : ∀ r ∈ a :: tl, r.projection = a.projection := by
        intro r hr
        exact congrArg Prod.snd (hall r hr)
      rw [decide_eq_true hg, decide_eq_true hp]
      simp

/-- A sample aligned dataset used to witness `claim_C4`. -/
def wds4 : Dataset :=
  { description := "w.tif", xsize := 1, ysize := 1,
    geotransform := { gt0 := 0, gt1 := 1, gt2 := 0, gt3 := 1, gt4 := 0, gt5 := 1 },
    gdaltype := GdalType.gdtByte, projection := "PJ",
    bands := [{ description := "b", nodata := none, values := [] }] }

/-- Witness for C4 at a concrete aligned pair of rasters. -/
theorem claim_C4_witness :
    (([wds4, wds4] : List Dataset).head? = some wds4 ∧
      ∀ r ∈ ([wds4, wds4] : List Dataset),
        (r.geotransform, r.projection) = (wds4.geotransform, wds4.projection)) ∧
    rasters_to_table (fun _ => []) [wds4, wds4] = make_table [wds4, wds4] :=
  ⟨⟨rfl, by with_unfolding_all decide⟩,
    (claim_C4 (fun _ => []) [wds4, wds4] wds4 rfl).2 (by with_unfolding_all decide)⟩

/-- C5: the claim states a bit-for-bit pack/load round trip for every
supported datatype and in-range value sequence.  Packing the INT1S value
`7` (in range `[0, 100]`) gives the byte `7`, but loading it back yields
the nodata sentinel `-99` instead of `7`, because the inverted validity
filter of line 74 replaces every in-range value; so the round trip fails.
This theorem evaluates the packer and the loader at that failing input. -/
theorem claim_C5 :
    specPack "INT1S" "little" [7] = some [7] ∧
    ((0 : ℚ) ≤ 7 ∧ (7 : ℚ) ≤ 100) ∧
    load_r_raster (fun p => p) "b.grd"
      (some { datatype := "INT1S", byteorder := "little", minvalue := 0, maxvalue := 100,
              nodatavalue := -99, ncols := 1, nrows := 1, xmin := 0, xmax := 1,
              ymin := 0, ymax := 1, projection := "" }) [7] =
      Except.ok
        { description := "b.tif", xsize := 1, ysize := 1,
          geotransform := { gt0 := 0, gt1 := 1, gt2 := 0, gt3 := 1, gt4 := 0, gt5 := 1 },
          gdaltype := GdalType.gdtByte, projection := "",
          bands := [{ description := "", nodata := some (-99),
                      values := [PyFloat.finite (-99)] }] } ∧
    PyFloat.finite (-99) ≠ PyFloat.finite 7 :=
  ⟨by with_unfolding_all rfl, ⟨by norm_num, by norm_num⟩,
    by with_unfolding_all rfl, by with_unfolding_all decide⟩

/-- C6: for a readable sidecar with a supported datatype/byte-order pair,
positive grid dimensions (the claim's own geotransform formula divides by
`ncols` and `nrows`, and at a zero dimension the source raises
`ZeroDivisionError` at lines 66-67 instead of producing a raster) and a
payload of exactly `nrows * ncols` items, `load_r_raster` succeeds with
grid dimensions `(nrows, ncols)`, geotransform
`(xmin, (xmax-xmin)/ncols, 0, ymax, 0, (ymax-ymin)/nrows)` and band-1
nodata equal to the declared sentinel. -/
theorem claim_C6 (toWkt : String → String) (filename : String) (s : Sidecar)
    (bin : List Nat) (dt bo : String)
    (hdt : DATATYPES s.datatype = some dt)
    (hbo : BYTEORDER s.byteorder = some bo)
    (hc : 0 < s.ncols) (hr : 0 < s.nrows)
    (hlen : bin.length = s.nrows * s.ncols * calcsize dt) :
    ∃ ds, load_r_raster toWkt filename (some s) bin = Except.ok ds ∧
      ds.ysize = s.nrows ∧ ds.xsize = s.ncols ∧
      ds.geotransform =
        { gt0 := s.xmin, gt1 := (s.xmax - s.xmin) / (s.ncols : ℚ), gt2 := 0,
          gt3 := s.ymax, gt4 := 0, gt5 := (s.ymax - s.ymin) / (s.nrows : ℚ) } ∧
      ∃ b, ds.bands = [b] ∧ b.nodata = some s.nodatavalue := by
  have hw : 0 < calcsize dt := calcsize_pos_of_DATATYPES hdt
  have hcount : bin.length / calcsize dt = s.nrows * s.ncols := by
    rw [hlen, Nat.mul_div_cancel _ hw]
  have hflen : (nodataFilter s.minvalue s.maxvalue s.nodatavalue
      (unpackValues bo dt (calcsize dt) (bin.length / calcsize dt) bin)).length =
      s.nrows * s.ncols := by
    rw [nodataFilter_length, unpackValues_length, hcount]
  obtain ⟨g, hg⟩ := GDALTYPES_isSome_of_DATATYPES hdt
  have hexact : bin.length = bin.length / calcsize dt * calcsize dt := by
    rw [hcount, ← hlen]
  have hok : load_r_raster toWkt filename (some s) bin =
      Except.ok
        { description := String.intercalate "." (setLast "tif" (filename.splitOn "."))
          xsize := s.ncols
          ysize := s.nrows
          geotransform :=
            { gt0 := s.xmin, gt1 := (s.xmax - s.xmin) / (s.ncols : ℚ), gt2 := 0
              gt3 := s.ymax, gt4 := 0, gt5 := (s.ymax - s.ymin) / (s.nrows : ℚ) }
          gdaltype := g
          projection := toWkt s.projection
          bands := [{ description := "", nodata := some s.nodatavalue,
                      values := nodataFilter s.minvalue s.maxvalue s.nodatavalue
                        (unpackValues bo dt (calcsize dt)
                          (bin.length / calcsize dt) bin) }] } := by
    simp only [load_r_raster, hdt, hbo, hg]
    rw [if_neg (fun hne => hne hexact), if_neg (by omega), if_neg (fun hne => hne hflen)]
  exact ⟨_, hok, rfl, rfl, rfl, _, rfl, rfl⟩

/-- A sample sidecar used to witness `claim_C6`: big-endian INT2S, 2×1
grid, bounding box `[0,4] × [0,6]`. -/
def wsc6 : Sidecar :=
  { datatype := "INT2S", byteorder := "big", minvalue := 0, maxvalue := 100,
    nodatavalue := -9, ncols := 1, nrows := 2, xmin := 0, xmax := 4, ymin := 0,
    ymax := 6, projection := "+proj=longlat" }

/-- Witness for C6 at a concrete sidecar and payload. -/
theorem claim_C6_witness :
    (DATATYPES wsc6.datatype = some "h" ∧ BYTEORDER wsc6.byteorder = some ">" ∧
      (0 < wsc6.ncols ∧ 0 < wsc6.nrows) ∧
      ([0, 1, 0, 2] : List Nat).length = wsc6.nrows * wsc6.ncols * calcsize "h") ∧
    (∃ ds, load_r_raster (fun p => p) "w.grd" (some wsc6) [0, 1, 0, 2] = Except.ok ds ∧
      ds.ysize = wsc6.nrows ∧ ds.xsize = wsc6.ncols ∧
      ds.geotransform =
        { gt0 := wsc6.xmin, gt1 := (wsc6.xmax - wsc6.xmin) / (wsc6.ncols : ℚ), gt2 := 0,
          gt3 := wsc6.ymax, gt4 := 0, gt5 := (wsc6.ymax - wsc6.ymin) / (wsc6.nrows : ℚ) } ∧
      ∃ b, ds.bands = [b] ∧ b.nodata = some wsc6.nodatavalue) :=
  ⟨⟨by with_unfolding_all rfl, by with_unfolding_all rfl,
      ⟨by with_unfolding_all decide, by with_unfolding_all decide⟩,
      by with_unfolding_all rfl⟩,
    claim_C6 (fun p => p) "w.grd" wsc6 [0, 1, 0, 2] "h" ">"
      (by with_unfolding_all rfl) (by with_unfolding_all rfl)
      (by with_unfolding_all decide) (by with_unfolding_all decide)
      (by with_unfolding_all rfl)⟩

/-- C7: when the payload's element count (byte length over the datatype's
width) differs from `nrows * ncols`, `load_r_raster` raises instead of
returning a raster: `struct.unpack` fails when the byte length is not a
whole number of items, the resolution division fails when a declared
dimension is zero, and `reshape` fails otherwise. -/
theorem claim_C7 (toWkt : String → String) (filename : String) (s : Sidecar)
    (bin : List Nat) (dt bo : String)
    (hdt : DATATYPES s.datatype = some dt)
    (hbo : BYTEORDER s.byteorder = some bo)
    (hlen : bin.length ≠ s.nrows * s.ncols * calcsize dt) :
    ∃ e, load_r_raster toWkt filename (some s) bin = Except.error e := by
  have hw : 0 < calcsize dt := calcsize_pos_of_DATATYPES hdt
  by_cases hex : bin.length = bin.length / calcsize dt * calcsize dt
  · by_cases hz : s.ncols = 0 ∨ s.nrows = 0
    · refine ⟨PyErr.zeroDivisionError, ?_⟩
      simp only [load_r_raster, hdt, hbo]
      rw [if_neg (fun hne => hne hex), if_pos hz]
    · have hcnt : bin.length / calcsize dt ≠ s.nrows * s.ncols := by
        intro hc
        rw [hc] at hex
        exact hlen hex
      refine ⟨PyErr.valueError "cannot reshape array", ?_⟩
      simp only [load_r_raster, hdt, hbo]
      rw [if_neg (fun hne => hne hex), if_neg hz]
      rw [if_pos (by rw [nodataFilter_length, unpackValues_length]; exact hcnt)]
  · exact ⟨PyErr.structError, by simp only [load_r_raster, hdt, hbo]; rw [if_pos hex]⟩

/-- A sample sidecar used to witness `claim_C7`: little-endian INT1S on a
1×1 grid, paired with a 3-byte payload. -/
def wsc7 : Sidecar :=
  { datatype := "INT1S", byteorder := "little", minvalue := 0, maxvalue := 100,
    nodatavalue := -9, ncols := 1, nrows := 1, xmin := 0, xmax := 1, ymin := 0,
    ymax := 1, projection := "" }

/-- Witness for C7 at a concrete oversized payload (3 bytes for 1 cell). -/
theorem claim_C7_witness :
    (DATATYPES wsc7.datatype = some "b" ∧ BYTEORDER wsc7.byteorder = some "<" ∧
      ([1, 2, 3] : List Nat).length ≠ wsc7.nrows * wsc7.ncols * calcsize "b") ∧
    ∃ e, load_r_raster (fun p => p) "w.grd" (some wsc7) [1, 2, 3] = Except.error e :=
  ⟨⟨by with_unfolding_all rfl, by with_unfolding_all rfl, by with_unfolding_all decide⟩,
    claim_C7 (fun p => p) "w.grd" wsc7 [1, 2, 3] "b" "<"
      (by with_unfolding_all rfl) (by with_unfolding_all rfl) (by with_unfolding_all decide)⟩

/-- C8: the claim says an unreadable sidecar makes `load_r_raster` raise
"an exception identifying the unreadable R raster file".  The code's
`raise(Exception, 'could not read R raster file %s' % ini_path)` is the
Python-2 two-argument raise form: under Python 3 it applies `raise` to a
tuple and therefore raises `TypeError: exceptions must derive from
BaseException`, an exception that does not mention the file at all (no
raster is returned, but the intended error is lost).  This theorem
evaluates the loader at an unreadable sidecar. -/
theorem claim_C8 :
    load_r_raster (fun p => p) "foo.grd" none [] =
      Except.error (PyErr.typeError "exceptions must derive from BaseException") ∧
    PyErr.typeError "exceptions must derive from BaseException" ≠
      PyErr.typeError "could not read R raster file foo.grd" :=
  ⟨by with_unfolding_all rfl, by with_unfolding_all decide⟩

/-- C9: a filename whose extension is not `gri`/`grd`, with a rastertype
that does not resolve to the custom format, goes to the generic path:
`gdal.Open(filename, gdal.GA_ReadOnly)` is called, a success is returned
as the handle, and any open failure is swallowed by the bare `except`,
yielding Python `None` with no exception propagated. -/
theorem claim_C9 (toWkt : String → String)
    (gdalOpen : String → OpenMode → Except String Dataset)
    (sidecar : Option Sidecar) (binstring : List Nat)
    (filename : String) (rastertype : Option String)
    (hext : ¬ ((filename.splitOn ".").getLastD "" ∈ (["gri", "grd"] : List String)))
    (hrt : rastertype ≠ some "r-raster") :
    (∀ e, gdalOpen filename OpenMode.gaReadOnly = Except.error e →
        load toWkt gdalOpen sidecar binstring filename rastertype = Except.ok none) ∧
    (∀ d, gdalOpen filename OpenMode.gaReadOnly = Except.ok d →
        load toWkt gdalOpen sidecar binstring filename rastertype = Except.ok (some d)) := by
  simp only [List.mem_cons, List.not_mem_nil, or_false, not_or] at hext
  obtain ⟨h1, h2⟩ := hext
  have hres : resolve_rastertype filename rastertype ≠ some "r-raster" := by
    unfold resolve_rastertype
    split_ifs with hA hB hC
    · simp_all
    · simp
    · exact hrt
    · exact hrt
  constructor
  · intro e he
    simp only [load, if_neg (by simpa using hres), he]
  · intro d hd
    simp only [load, if_neg (by simpa using hres), hd]

/-- Witness for C9: opening `w.tif` with a failing GDAL open yields
`None` and no exception. -/
theorem claim_C9_witness :
    (¬ (("w.tif".splitOn ".").getLastD "" ∈ (["gri", "grd"] : List String)) ∧
      (none : Option String) ≠ some "r-raster") ∧
    load (fun p => p) (fun _ _ => Except.error "open failed") none [] "w.tif" none =
      Except.ok none :=
  ⟨⟨by with_unfolding_all decide, by decide⟩,
    (claim_C9 (fun p => p) (fun _ _ => Except.error "open failed") none [] "w.tif" none
      (by with_unfolding_all decide) (by decide)).1 "open failed" rfl⟩

/-- C10: for a non-degenerate validity range (`minvalue < maxvalue`), the
filter condition of line 74, `value <= minvalue and value >= maxvalue`,
is unsatisfiable (also for NaN and the infinities, under Python float
comparison semantics), so every cell of a successfully loaded raster
equals the nodata sentinel no matter what the payload contained. -/
theorem claim_C10 (toWkt : String → String) (filename : String) (s : Sidecar)
    (bin : List Nat) (ds : Dataset)
    (hlt : s.minvalue < s.maxvalue)
    (hok : load_r_raster toWkt filename (some s) bin = Except.ok ds) :
    (∀ x : PyFloat, (ple x s.minvalue && pge x s.maxvalue) = false) ∧
    ∀ b ∈ ds.bands, ∀ v ∈ b.values, v = PyFloat.finite s.nodatavalue := by
  constructor
  · intro x
    cases x with
    | finite q =>
      simp only [ple, pge, Bool.and_eq_false_iff, decide_eq_false_iff_not]
      by_cases h1 : q ≤ s.minvalue
      · right
        intro h2
        exact absurd (lt_of_lt_of_le hlt h2) (not_lt.mpr h1)
      · left; exact h1
    | inf => rfl
    | ninf => simp [ple, pge]
    | nan => rfl
  · obtain ⟨vs, hbands⟩ := load_r_raster_ok_inv hok
    intro b hb v hv
    rw [hbands] at hb
    simp only [List.mem_singleton] at hb
    subst hb
    exact nodataFilter_all_nodata s.nodatavalue vs hlt v hv

/-- A sample sidecar used to witness `claim_C10`: range `[2, 3]`, nodata
`-5`, one INT1U cell. -/
def wsc10 : Sidecar :=
  { datatype := "INT1U", byteorder := "little", minvalue := 2, maxvalue := 3,
    nodatavalue := -5, ncols := 1, nrows := 1, xmin := 0, xmax := 1, ymin := 0,
    ymax := 1, projection := "" }

/-- The dataset that loading `wsc10`'s file pair with payload `[9]`
produces. -/
def wds10 : Dataset :=
  { description := "t.tif", xsize := 1, ysize := 1,
    geotransform := { gt0 := 0, gt1 := 1, gt2 := 0, gt3 := 1, gt4 := 0, gt5 := 1 },
    gdaltype := GdalType.gdtByte, projection := "",
    bands := [{ description := "", nodata := some (-5),
                values := [PyFloat.finite (-5)] }] }

/-- Witness for C10: the payload value 9 (or any other) loads as the
nodata sentinel -5 when the declared range is the non-degenerate [2,3]. -/
theorem claim_C10_witness :
    (wsc10.minvalue < wsc10.maxvalue ∧
      load_r_raster (fun p => p) "t.gri" (some wsc10) [9] = Except.ok wds10) ∧
    ((∀ x : PyFloat, (ple x wsc10.minvalue && pge x wsc10.maxvalue) = false) ∧
      ∀ b ∈ wds10.bands, ∀ v ∈ b.values, v = PyFloat.finite wsc10.nodatavalue) :=
  ⟨⟨by norm_num [wsc10], by with_unfolding_all rfl⟩,
    claim_C10 (fun p => p) "t.gri" wsc10 [9] wds10
      (by norm_num [wsc10]) (by with_unfolding_all rfl)⟩

end RasterSpec
